import Mathlib

/-!
Verification of the arweave-rs transaction integrity and submission core.

The development shallowly embeds the code of `src/lib.rs` and `src/signer.rs`:
byte strings become `List Nat`, the `crypto::Provider` capability set becomes a
structure of functions, Rust `Result` becomes `Except`, and a reachable panic
(`unwrap` / `expect` on an error) is modelled by `Option.none` around the result.
Modules of the repository that are not part of the two embedded files
(`crypto`, `transaction`, `error`) are modelled from the specification; each such
definition carries a doc comment saying so.
-/

namespace ArweaveRs

/-- Byte strings: lists of naturals, each intended `< 256`. -/
abbrev Bytes := List Nat

/-- `crypto::base64::Base64`: a newtype over raw bytes (`Base64(pub Vec<u8>)`). -/
structure Base64 where
  bytes : Bytes
deriving DecidableEq, Repr

/-- `Base64::is_empty`: whether the underlying byte vector is empty. -/
def Base64.is_empty (b : Base64) : Bool := b.bytes.isEmpty

/-- One character of the URL-safe base64 alphabet (`A-Z`, `a-z`, `0-9`, `-`, `_`),
as an ASCII code. -/
def b64Char (i : Nat) : Nat :=
  if i < 26 then 65 + i
  else if i < 52 then 97 + (i - 26)
  else if i < 62 then 48 + (i - 52)
  else if i = 62 then 45
  else 95

/-- Modelled from the spec: the textual form of `crypto::base64::Base64`
(its `Display` implementation lives in the `crypto::base64` module, which is not
under `src/`).  The repository renders byte strings as URL-safe base64 without
padding (the in-scope `src/signer.rs` uses the `BASE64URL` encoding for exactly
this purpose), so `to_string()` is modelled as URL-safe, no-pad base64 encoding,
returned as the list of ASCII codes of the rendered string. -/
def b64UrlEncode : Bytes → Bytes
  | [] => []
  | [b1] => [b64Char (b1 / 4), b64Char (b1 % 4 * 16)]
  | [b1, b2] => [b64Char (b1 / 4), b64Char (b1 % 4 * 16 + b2 / 16), b64Char (b2 % 16 * 4)]
  | b1 :: b2 :: b3 :: rest =>
      b64Char (b1 / 4) :: b64Char (b1 % 4 * 16 + b2 / 16) ::
        b64Char (b2 % 16 * 4 + b3 / 64) :: b64Char (b3 % 64) :: b64UrlEncode rest

/-- `transaction::tags::Tag<Base64>`: a name/value pair of byte strings. -/
structure Tag where
  name : Base64
  value : Base64
deriving DecidableEq, Repr

/-- `transaction::Tx`: the transaction record, fields per spec section 3
(`reward` is the fee field, `last_tx` the last-reference anchor). -/
structure Tx where
  format : Nat
  id : Base64
  last_tx : Base64
  owner : Base64
  tags : List Tag
  target : Base64
  quantity : Nat
  data_root : Base64
  data : Base64
  data_size : Nat
  reward : Nat
  signature : Base64
deriving DecidableEq, Repr

/-- `error::Error`: the error taxonomy of spec section 7 (the `error` module is
not under `src/`; the variants used by the embedded code are those the spec and
`src/lib.rs` / `src/signer.rs` name). -/
inductive Error where
  | UnsignedTransaction
  | InvalidSignature
  | EncodingError
  | KeyUnavailable
  | StatusCodeNotOk
  | ChunkUploadFailed
deriving DecidableEq, Repr

instance {ε : Type u} {α : Type v} [DecidableEq ε] [DecidableEq α] :
    DecidableEq (Except ε α) := fun a b =>
  match a, b with
  | .ok x, .ok y => if h : x = y then isTrue (by simp [h]) else isFalse (by simp [h])
  | .error x, .error y => if h : x = y then isTrue (by simp [h]) else isFalse (by simp [h])
  | .ok _, .error _ => isFalse (by simp)
  | .error _, .ok _ => isFalse (by simp)

/-- `crypto::deep_hash::DeepHashItem`: a raw byte string or an ordered sequence
of nested items. -/
inductive DeepHashItem where
  | blob : Bytes → DeepHashItem
  | list : List DeepHashItem → DeepHashItem

/-- ASCII decimal rendering of a natural number (the canonical textual encoding
used for lengths and numeric transaction fields). -/
def asciiDecimal (n : Nat) : Bytes := (Nat.toDigits 10 n).map Char.toNat

/-- Modelled from the spec (section 4.1): the leaf tag, a fixed literal
(ASCII `blob`) followed by the ASCII decimal of the leaf's length. -/
def blobTag (L : Nat) : Bytes := [98, 108, 111, 98] ++ asciiDecimal L

/-- Modelled from the spec (section 4.1): the sequence tag, a fixed literal
(ASCII `list`) followed by the ASCII decimal of the element count. -/
def listTag (N : Nat) : Bytes := [108, 105, 115, 116] ++ asciiDecimal N

mutual

/-- Modelled from the spec (section 4.1): the deep hash, generic in the
underlying cryptographic hash `H`: a leaf hashes its tagged, length-prefixed
bytes; a sequence folds `acc = H(acc ++ deep_hash element)` starting from
`H(listTag N)`.  The `crypto::deep_hash` module is not under `src/`. -/
def deepHashWith (H : Bytes → Bytes) : DeepHashItem → Bytes
  | .blob b => H (blobTag b.length ++ b)
  | .list l => deepHashFoldWith H (H (listTag l.length)) l

/-- The order-sensitive fold over a sequence of deep-hash items. -/
def deepHashFoldWith (H : Bytes → Bytes) (acc : Bytes) : List DeepHashItem → Bytes
  | [] => acc
  | e :: rest => deepHashFoldWith H (H (acc ++ deepHashWith H e)) rest

end

/-- Modelled from the spec: the `crypto::Provider` capability set of spec
section 4.2 (the `crypto` module is not under `src/`).  `sign` and the
two-argument `verify` operate with the provider's own key pair, as the calls in
`src/lib.rs` do; `hash_sha256` is the fixed-length digest used to derive the
transaction id; `deep_hash` is the canonical hasher applied to a deep-hash item. -/
structure Provider where
  sign : Bytes → Bytes
  verify : Bytes → Bytes → Bool
  hash_sha256 : Bytes → Bytes
  deep_hash : DeepHashItem → Bytes

/-- Modelled from the spec: `transaction::ToItems::to_deep_hash_item` is not
under `src/`.  Per spec sections 4.1 and 4.3 it assembles the signable content
as the fixed-order sequence (format, owner, target, quantity, fee, last
reference, tags as a sequence of name/value pairs, data size, data root), with
numeric fields in canonical ASCII decimal; per spec section 4.1 it may fail with
`EncodingError` when a field cannot be represented as a byte string, and on this
model of the fields it is total. -/
def Tx.to_deep_hash_item (tx : Tx) : Except Error DeepHashItem :=
  Except.ok (.list
    [ .blob (asciiDecimal tx.format)
    , .blob tx.owner.bytes
    , .blob tx.target.bytes
    , .blob (asciiDecimal tx.quantity)
    , .blob (asciiDecimal tx.reward)
    , .blob tx.last_tx.bytes
    , .list (tx.tags.map fun t => .list [.blob t.name.bytes, .blob t.value.bytes])
    , .blob (asciiDecimal tx.data_size)
    , .blob tx.data_root.bytes ])

/-- `Arweave::sign_transaction` (src/lib.rs lines 101-110).  The canonicalizer
`thi` is passed as an argument because `to_deep_hash_item` lives outside `src/`
(`Tx.to_deep_hash_item` above is its spec model); the code calls `.unwrap()` on
its result, so an `Err` from the canonicalizer panics, modelled as `none`.
`ArweaveSigner::sign_transaction` (src/signer.rs lines 44-54) is the same
computation with `.expect(..)` in place of `.unwrap()`. -/
def sign_transaction (p : Provider) (thi : Tx → Except Error DeepHashItem)
    (tx : Tx) : Option (Except Error Tx) :=
  match thi tx with
  | .error _ => none
  | .ok deep_hash_item =>
      let signature_data := p.deep_hash deep_hash_item
      let signature := p.sign signature_data
      let id := p.hash_sha256 signature
      some (.ok { tx with signature := ⟨signature⟩, id := ⟨id⟩ })

/-- `Arweave::verify_transaction` (src/lib.rs lines 112-126).  Note the code
takes `transaction.signature.to_string().as_bytes()` — the ASCII bytes of the
base64url rendering of the signature — and hands those to `crypto.verify`; the
embedding reproduces this via `b64UrlEncode`.  As in `sign_transaction`, the
`.unwrap()` on the canonicalizer result is modelled as `none`. -/
def verify_transaction (p : Provider) (thi : Tx → Except Error DeepHashItem)
    (tx : Tx) : Option (Except Error Unit) :=
  if tx.signature.is_empty then some (.error .UnsignedTransaction)
  else
    match thi tx with
    | .error _ => none
    | .ok deep_hash_item =>
        let data_to_sign := p.deep_hash deep_hash_item
        let sig_bytes := b64UrlEncode tx.signature.bytes
        if p.verify sig_bytes data_to_sign then some (.ok ()) else some (.error .InvalidSignature)

/-- `BLOCK_SIZE` (src/lib.rs line 22): block size used for pricing, 256 KB. -/
def BLOCK_SIZE : Nat := 1024 * 256

/-- `MAX_TX_DATA` (src/lib.rs line 25): maximum data size sent inline. -/
def MAX_TX_DATA : Nat := 10000000

/-- `CHUNKS_BUFFER_FACTOR` (src/lib.rs line 29): multiplier on the caller's
buffer argument bounding simultaneous chunk requests. -/
def CHUNKS_BUFFER_FACTOR : Nat := 20

/-- `CHUNKS_RETRIES` (src/lib.rs line 32): number of posting attempts. -/
def CHUNKS_RETRIES : Nat := 10

/-- `CHUNKS_RETRY_SLEEP` (src/lib.rs line 35): seconds between retries. -/
def CHUNKS_RETRY_SLEEP : Nat := 1

/-- HTTP 200, `reqwest::StatusCode::OK`. -/
def STATUS_OK : Nat := 200

/-- HTTP 404, `reqwest::StatusCode::NOT_FOUND`, the loop's initial status. -/
def STATUS_NOT_FOUND : Nat := 404

/-- One observable effect of `post_transaction`: a POST of the transaction body
to the `tx` endpoint, or a sleep of the given number of seconds. -/
inductive Effect where
  | post
  | sleepSec (secs : Nat)
deriving DecidableEq, Repr

/-- The retry loop of `Arweave::post_transaction` (src/lib.rs lines 133-155).
`resp i` is the HTTP status the gateway returns to the `i`-th POST (the send is
`.expect(..)`-ed, so a delivered response is assumed).  The Rust loop runs
`while (retries < CHUNKS_RETRIES) & (status != OK)` starting from
`status = NOT_FOUND`; a 200 response returns success from inside the body, and
every other response sleeps `CHUNKS_RETRY_SLEEP` seconds and increments
`retries`, so the loop is equivalent to this recursion on the remaining
attempts `CHUNKS_RETRIES - retries`.  The first component of the result is the
ordered trace of effects. -/
def postLoop (resp : Nat → Nat) (idAndFee : Base64 × Nat) (attempt : Nat) :
    Nat → List Effect × Except Error (Base64 × Nat)
  | 0 => ([], .error .StatusCodeNotOk)
  | n + 1 =>
      if resp attempt = STATUS_OK then ([.post], .ok idAndFee)
      else
        let rest := postLoop resp idAndFee (attempt + 1) n
        (.post :: .sleepSec CHUNKS_RETRY_SLEEP :: rest.1, rest.2)

/-- `Arweave::post_transaction` (src/lib.rs lines 128-158): an empty `id`
returns `UnsignedTransaction` before any request; otherwise the retry loop
posts up to `CHUNKS_RETRIES` times, returning `(id, reward)` on the first 200
and `StatusCodeNotOk` on exhaustion. -/
def post_transaction (resp : Nat → Nat) (tx : Tx) :
    List Effect × Except Error (Base64 × Nat) :=
  if tx.id.bytes = [] then ([], .error .UnsignedTransaction)
  else postLoop resp (tx.id, tx.reward) 0 CHUNKS_RETRIES

/-- A concrete executable 32-byte digest standing in for SHA-256 in the test
instances below (the real `crypto` module is not under `src/`; no claim depends
on the digest's internals, only on its fixed 32-byte length and determinism). -/
def hash32 (b : Bytes) : Bytes :=
  (List.range 32).map fun i => (b.foldl (fun a x => (a * 31 + x) % 256) 7 + i) % 256

/-- Modelled from the spec (section 4.2): salted, hash-randomized (PSS-style)
padding over the pre-hashed message digest.  The salt drawn from the system RNG
at each signing run is made an explicit argument; as in PSS, the salt is
recoverable from the signature (here it is the suffix after the 32-byte
digest). -/
def pssSign (H : Bytes → Bytes) (salt msg : Bytes) : Bytes :=
  H (H msg ++ salt) ++ salt

/-- Modelled from the spec (section 4.2): PSS-style verification reconstructs
the padding from the recovered salt and accepts exactly when the signature
matches; it succeeds for every salt the signer may have drawn. -/
def pssVerify (H : Bytes → Bytes) (sig msg : Bytes) : Bool :=
  sig == H (H msg ++ sig.drop 32) ++ sig.drop 32

/-- A provider for one signing run whose RNG drew `salt`: PSS-style salted
signing over the 32-byte digest, with the canonical deep hasher. -/
def pssProvider (salt : Bytes) : Provider where
  sign := pssSign hash32 salt
  verify s m := pssVerify hash32 s m
  hash_sha256 := hash32
  deep_hash := deepHashWith hash32

/-- A sound deterministic test key pair: a signature is accepted exactly when
it equals the signer's output on the message (every correct signature scheme
refutes forgeries of this shape, and this one is small enough to evaluate). -/
def soundProvider : Provider where
  sign m := 1 :: m
  verify s m := s == 1 :: m
  hash_sha256 m := 2 :: hash32 m
  deep_hash := deepHashWith hash32

/-- The end-to-end example transaction of spec section 8: `quantity = 0`,
`fee = 500000`, empty `target` and `data`, one tag (ASCII `App-Name`, ASCII
`Test`); unsigned, with concrete owner and anchor bytes for the fixed test key
pair. -/
def exampleTx : Tx :=
  { format := 2
  , id := ⟨[]⟩
  , last_tx := ⟨[9, 8, 7]⟩
  , owner := ⟨[3, 1, 4, 1, 5]⟩
  , tags := [⟨⟨[65, 112, 112, 45, 78, 97, 109, 101]⟩, ⟨[84, 101, 115, 116]⟩⟩]
  , target := ⟨[]⟩
  , quantity := 0
  , data_root := ⟨[]⟩
  , data := ⟨[]⟩
  , data_size := 0
  , reward := 500000
  , signature := ⟨[]⟩ }

/-- The canonical deep-hash item of `exampleTx`. -/
def exampleItem : DeepHashItem :=
  match Tx.to_deep_hash_item exampleTx with
  | .ok i => i
  | .error _ => .blob []

/-- `exampleTx` as signed by `soundProvider`: signature over the deep hash,
id the digest of the signature (the output of `sign_transaction`). -/
def signedExampleTx : Tx :=
  { exampleTx with
      signature := ⟨soundProvider.sign (soundProvider.deep_hash exampleItem)⟩
      id := ⟨soundProvider.hash_sha256 (soundProvider.sign (soundProvider.deep_hash exampleItem))⟩ }

/-- `exampleTx` as signed by the run of the PSS signer that drew `salt`. -/
def runTx (salt : Bytes) : Tx :=
  { exampleTx with
      signature := ⟨pssSign hash32 salt (deepHashWith hash32 exampleItem)⟩
      id := ⟨hash32 (pssSign hash32 salt (deepHashWith hash32 exampleItem))⟩ }

/-- A canonicalizer run in which the deep-hash item cannot be constructed
(spec section 4.1 reserves `EncodingError` for exactly this). -/
def failingCanonicalizer : Tx → Except Error DeepHashItem :=
  fun _ => .error .EncodingError

/-- A transaction with a populated id, for exercising the submission loop. -/
def postableTx : Tx := { exampleTx with id := ⟨[1, 2, 3]⟩ }

lemma hash32_length (b : Bytes) : (hash32 b).length = 32 := by
  simp [hash32]

lemma pssVerify_pssSign (salt msg : Bytes) :
    pssVerify hash32 (pssSign hash32 salt msg) msg = true := by
  have h : (pssSign hash32 salt msg).drop 32 = salt := by
    unfold pssSign
    rw [← hash32_length (hash32 msg ++ salt), List.drop_left]
  unfold pssVerify
  rw [h]
  simp [pssSign]

lemma postLoop_all_fail (resp : Nat → Nat) (idAndFee : Base64 × Nat)
    (h : ∀ i, resp i ≠ STATUS_OK) :
    ∀ n a, postLoop resp idAndFee a n
      = ((List.replicate n [Effect.post, Effect.sleepSec CHUNKS_RETRY_SLEEP]).flatten,
          Except.error Error.StatusCodeNotOk) := by
  intro n
  induction n with
  | zero => intro a; simp [postLoop]
  | succ n ih =>
      intro a
      simp [postLoop, h a, ih (a + 1), List.replicate_succ]

lemma postLoop_outcomes (resp : Nat → Nat) (idAndFee : Base64 × Nat) :
    ∀ n a, (postLoop resp idAndFee a n).2 = Except.ok idAndFee
      ∨ (postLoop resp idAndFee a n).2 = Except.error Error.StatusCodeNotOk := by
  intro n
  induction n with
  | zero => intro a; right; simp [postLoop]
  | succ n ih =>
      intro a
      by_cases hc : resp a = STATUS_OK
      · left; simp [postLoop, hc]
      · simpa [postLoop, hc] using ih (a + 1)

set_option maxRecDepth 8192 in
/-- Claim C1 (refuted by the code): the sign/verify round trip fails.
`Arweave::sign_transaction` stores the raw signature bytes, but
`Arweave::verify_transaction` hands `signature.to_string().as_bytes()` — the
ASCII bytes of the base64url rendering of the signature — to `crypto.verify`,
so verifying the unmodified transaction that was just signed under a sound
deterministic key pair returns `InvalidSignature` instead of `Ok(())`. -/
theorem sign_verify_round_trip_fails :
    sign_transaction soundProvider Tx.to_deep_hash_item exampleTx
      = some (Except.ok signedExampleTx)
    ∧ verify_transaction soundProvider Tx.to_deep_hash_item signedExampleTx
      = some (Except.error Error.InvalidSignature) := by
  exact ⟨by decide, by decide⟩

set_option maxRecDepth 8192 in
/-- Claim C2 (refuted by the code): after the empty-signature guard (which does
behave as claimed, returning `UnsignedTransaction` exactly on an empty
signature), `Arweave::verify_transaction` does not check the raw signature
bytes: under a key pair that accepts exactly the raw signature over the
recomputed deep hash, the raw bytes are accepted, yet the base64url text the
function actually passes differs from them and the function returns
`InvalidSignature`. -/
theorem verify_transaction_checks_encoded_text :
    soundProvider.verify signedExampleTx.signature.bytes
        (soundProvider.deep_hash exampleItem) = true
    ∧ b64UrlEncode signedExampleTx.signature.bytes ≠ signedExampleTx.signature.bytes
    ∧ verify_transaction soundProvider Tx.to_deep_hash_item signedExampleTx
        = some (Except.error Error.InvalidSignature)
    ∧ verify_transaction soundProvider Tx.to_deep_hash_item
        { signedExampleTx with signature := ⟨[]⟩ }
        = some (Except.error Error.UnsignedTransaction) := by
  exact ⟨by decide, by decide, by decide, by decide⟩

/-- Claim C3: on any run where the canonicalizer yields the deep-hash item, the
transaction returned by `sign_transaction` carries in `signature` the raw
signature bytes produced over the deep hash of the canonical field sequence,
and in `id` the SHA-256 digest of those signature bytes — a digest of the
signature itself, not of the signed message. -/
theorem sign_transaction_sets_signature_and_id (p : Provider)
    (thi : Tx → Except Error DeepHashItem) (tx : Tx) (item : DeepHashItem)
    (h : thi tx = Except.ok item) :
    sign_transaction p thi tx
      = some (Except.ok { tx with
          signature := ⟨p.sign (p.deep_hash item)⟩
          id := ⟨p.hash_sha256 (p.sign (p.deep_hash item))⟩ }) := by
  simp [sign_transaction, h]

theorem sign_transaction_sets_signature_and_id_witness :
    Tx.to_deep_hash_item exampleTx = Except.ok exampleItem ∧
    sign_transaction soundProvider Tx.to_deep_hash_item exampleTx
      = some (Except.ok signedExampleTx) :=
  ⟨rfl, sign_transaction_sets_signature_and_id soundProvider Tx.to_deep_hash_item
    exampleTx exampleItem rfl⟩

/-- Claim C4: with a populated id and a gateway that never answers 200,
`post_transaction` POSTs exactly `CHUNKS_RETRIES = 10` times with a
`CHUNKS_RETRY_SLEEP = 1` second sleep between consecutive attempts (the trace
is ten post/sleep rounds) and then returns `StatusCodeNotOk`; and for every
gateway behaviour the call has exactly one terminal outcome — success with
`(id, fee)` or `StatusCodeNotOk` — with no partial-success state. -/
theorem post_transaction_retry_exhaustion (resp : Nat → Nat) (tx : Tx)
    (hid : tx.id.bytes ≠ []) :
    ((∀ i, resp i ≠ STATUS_OK) →
        post_transaction resp tx
          = ((List.replicate CHUNKS_RETRIES
                [Effect.post, Effect.sleepSec CHUNKS_RETRY_SLEEP]).flatten,
              Except.error Error.StatusCodeNotOk))
    ∧ ((post_transaction resp tx).2 = Except.ok (tx.id, tx.reward)
        ∨ (post_transaction resp tx).2 = Except.error Error.StatusCodeNotOk) := by
  constructor
  · intro h
    simp [post_transaction, hid, postLoop_all_fail resp (tx.id, tx.reward) h]
  · simpa [post_transaction, hid] using
      postLoop_outcomes resp (tx.id, tx.reward) CHUNKS_RETRIES 0

theorem post_transaction_retry_exhaustion_witness :
    postableTx.id.bytes ≠ [] ∧
    post_transaction (fun _ => STATUS_NOT_FOUND) postableTx
      = ((List.replicate CHUNKS_RETRIES
            [Effect.post, Effect.sleepSec CHUNKS_RETRY_SLEEP]).flatten,
          Except.error Error.StatusCodeNotOk) :=
  ⟨by decide,
    (post_transaction_retry_exhaustion (fun _ => STATUS_NOT_FOUND) postableTx
        (by decide)).1 (fun i => by decide)⟩

/-- Claim C5: on a transaction whose id is empty, `post_transaction` returns
`UnsignedTransaction` immediately: the effect trace is empty, so no POST and no
sleep happens, whatever the gateway would have answered. -/
theorem post_transaction_empty_id_no_request (resp : Nat → Nat) (tx : Tx)
    (h : tx.id.bytes = []) :
    post_transaction resp tx = ([], Except.error Error.UnsignedTransaction) := by
  simp [post_transaction, h]

theorem post_transaction_empty_id_no_request_witness :
    post_transaction (fun _ => STATUS_OK) exampleTx
      = ([], Except.error Error.UnsignedTransaction) :=
  post_transaction_empty_id_no_request (fun _ => STATUS_OK) exampleTx (by decide)

/-- Claim C6 (refuted by the code): a canonicalization failure does not surface
as a returned error value — the `.unwrap()` at src/lib.rs lines 103 and 117
(and the `.expect(..)` in src/signer.rs) panics, modelled as `none`: on a run
where the deep-hash item cannot be constructed, neither operation returns a
failure value at all. -/
theorem canonicalization_error_panics :
    sign_transaction soundProvider failingCanonicalizer exampleTx = none
    ∧ verify_transaction soundProvider failingCanonicalizer signedExampleTx = none := by
  exact ⟨rfl, rfl⟩

/-- Claim C6 amended: signature-phase outcomes do surface as returned values —
an absent signature as `UnsignedTransaction`, a failed signature check as
`InvalidSignature` — but when the canonical deep-hash item cannot be
constructed, `sign_transaction` and `verify_transaction` panic on the
`.unwrap()` / `.expect(..)` of the canonicalizer result instead of returning
the error. -/
theorem errors_panic_or_surface (p : Provider)
    (thi : Tx → Except Error DeepHashItem) (tx : Tx) :
    (∀ e, thi tx = Except.error e →
        sign_transaction p thi tx = none
        ∧ (tx.signature.is_empty = false → verify_transaction p thi tx = none))
    ∧ (tx.signature.is_empty = true →
        verify_transaction p thi tx = some (Except.error Error.UnsignedTransaction))
    ∧ (∀ item, thi tx = Except.ok item → tx.signature.is_empty = false →
        p.verify (b64UrlEncode tx.signature.bytes) (p.deep_hash item) = false →
        verify_transaction p thi tx = some (Except.error Error.InvalidSignature)) := by
  refine ⟨?_, ?_, ?_⟩
  · intro e he
    exact ⟨by simp [sign_transaction, he],
      fun hs => by simp [verify_transaction, hs, he]⟩
  · intro hs
    simp [verify_transaction, hs]
  · intro item hi hs hv
    simp [verify_transaction, hs, hi, hv]

theorem errors_panic_or_surface_witness :
    sign_transaction soundProvider failingCanonicalizer postableTx = none
    ∧ verify_transaction soundProvider failingCanonicalizer exampleTx
        = some (Except.error Error.UnsignedTransaction) :=
  ⟨((errors_panic_or_surface soundProvider failingCanonicalizer postableTx).1
      Error.EncodingError rfl).1,
    (errors_panic_or_surface soundProvider failingCanonicalizer exampleTx).2.1 rfl⟩

/-- Claim C7: signing sets `id` and `signature` together in one call: whenever
the provider's signature and digest are non-empty byte strings (an RSA
signature and a SHA-256 digest always are), the transaction returned by
`sign_transaction` has both fields populated; `verify_transaction` is a pure
check whose result carries no transaction, so it mutates neither field. -/
theorem sign_transaction_sets_both_fields (p : Provider)
    (thi : Tx → Except Error DeepHashItem) (tx : Tx) (item : DeepHashItem)
    (h : thi tx = Except.ok item)
    (hsig : p.sign (p.deep_hash item) ≠ [])
    (hid : p.hash_sha256 (p.sign (p.deep_hash item)) ≠ []) :
    ∃ tx2, sign_transaction p thi tx = some (Except.ok tx2)
      ∧ tx2.signature.is_empty = false ∧ tx2.id.is_empty = false := by
  refine ⟨{ tx with
      signature := ⟨p.sign (p.deep_hash item)⟩
      id := ⟨p.hash_sha256 (p.sign (p.deep_hash item))⟩ },
    by simp [sign_transaction, h], ?_, ?_⟩
  · simpa [Base64.is_empty] using hsig
  · simpa [Base64.is_empty] using hid

theorem sign_transaction_sets_both_fields_witness :
    ∃ tx2, sign_transaction soundProvider Tx.to_deep_hash_item exampleTx
        = some (Except.ok tx2)
      ∧ tx2.signature.is_empty = false ∧ tx2.id.is_empty = false :=
  sign_transaction_sets_both_fields soundProvider Tx.to_deep_hash_item exampleTx
    exampleItem rfl (by decide) (by decide)

/-- Claim C8: the default boundary constants have exactly the specified values:
inline threshold 10,000,000 bytes, canonical block size 262,144 bytes, chunk
retry bound 10, inter-retry delay 1 second, concurrency multiplier 20. -/
theorem boundary_constants_values :
    MAX_TX_DATA = 10000000 ∧ BLOCK_SIZE = 262144 ∧ CHUNKS_RETRIES = 10
      ∧ CHUNKS_RETRY_SLEEP = 1 ∧ CHUNKS_BUFFER_FACTOR = 20 := by
  decide

set_option maxRecDepth 8192 in
/-- Claim C9 (refuted by the code): signing uses the salted, hash-randomized
padding of spec section 4.2, so two signing runs over the same fixed key pair
and the same example transaction — differing only in the salt the run's RNG
drew — produce different signature and id bytes; byte-for-byte reproducibility
across runs fails. -/
theorem signing_not_reproducible_across_runs :
    sign_transaction (pssProvider [0]) Tx.to_deep_hash_item exampleTx
      = some (Except.ok (runTx [0]))
    ∧ sign_transaction (pssProvider [1]) Tx.to_deep_hash_item exampleTx
      = some (Except.ok (runTx [1]))
    ∧ runTx [0] ≠ runTx [1] := by
  exact ⟨rfl, rfl, by decide⟩

/-- Claim C9 amended: signing the example transaction is deterministic with
respect to the key pair, the transaction content and the padding salt: a run
that draws `salt` produces exactly `runTx salt`, whose signature is the salted
padding over the deep hash, whose id is the digest of that signature, and whose
raw signature bytes PSS-verify against the recomputed deep hash for every
salt. -/
theorem signing_deterministic_given_salt (salt : Bytes) :
    sign_transaction (pssProvider salt) Tx.to_deep_hash_item exampleTx
      = some (Except.ok (runTx salt))
    ∧ (runTx salt).signature.bytes
        = pssSign hash32 salt (deepHashWith hash32 exampleItem)
    ∧ (runTx salt).id.bytes = hash32 ((runTx salt).signature.bytes)
    ∧ pssVerify hash32 ((runTx salt).signature.bytes)
        (deepHashWith hash32 exampleItem) = true := by
  refine ⟨rfl, rfl, rfl, ?_⟩
  exact pssVerify_pssSign salt (deepHashWith hash32 exampleItem)

theorem signing_deterministic_given_salt_witness :
    sign_transaction (pssProvider [5, 6]) Tx.to_deep_hash_item exampleTx
      = some (Except.ok (runTx [5, 6]))
    ∧ pssVerify hash32 ((runTx [5, 6]).signature.bytes)
        (deepHashWith hash32 exampleItem) = true :=
  ⟨(signing_deterministic_given_salt [5, 6]).1,
    (signing_deterministic_given_salt [5, 6]).2.2.2⟩

/-- Claim C10: `sign_transaction` succeeds on every transaction, including an
already-signed one — there is no `AlreadySigned` error — unconditionally
overwriting `signature` and `id` with freshly computed values and leaving
`format`, `owner`, `target`, `quantity`, `reward`, `last_tx`, `tags`, `data`,
`data_size` and `data_root` unchanged. -/
theorem sign_transaction_overwrites_and_preserves (p : Provider)
    (thi : Tx → Except Error DeepHashItem) (tx : Tx) (item : DeepHashItem)
    (h : thi tx = Except.ok item) :
    ∃ tx2, sign_transaction p thi tx = some (Except.ok tx2)
      ∧ tx2.format = tx.format ∧ tx2.owner = tx.owner ∧ tx2.target = tx.target
      ∧ tx2.quantity = tx.quantity ∧ tx2.reward = tx.reward
      ∧ tx2.last_tx = tx.last_tx ∧ tx2.tags = tx.tags ∧ tx2.data = tx.data
      ∧ tx2.data_size = tx.data_size ∧ tx2.data_root = tx.data_root
      ∧ tx2.signature = ⟨p.sign (p.deep_hash item)⟩
      ∧ tx2.id = ⟨p.hash_sha256 (p.sign (p.deep_hash item))⟩ :=
  ⟨{ tx with
      signature := ⟨p.sign (p.deep_hash item)⟩
      id := ⟨p.hash_sha256 (p.sign (p.deep_hash item))⟩ },
    by simp [sign_transaction, h], rfl, rfl, rfl, rfl, rfl, rfl, rfl, rfl,
    rfl, rfl, rfl, rfl⟩

theorem sign_transaction_overwrites_and_preserves_witness :
    ∃ tx2, sign_transaction soundProvider Tx.to_deep_hash_item signedExampleTx
        = some (Except.ok tx2)
      ∧ tx2.reward = signedExampleTx.reward
      ∧ tx2.signature = ⟨soundProvider.sign (soundProvider.deep_hash exampleItem)⟩ := by
  obtain ⟨tx2, h1, _, _, _, _, h5, _, _, _, _, _, h11, _⟩ :=
    sign_transaction_overwrites_and_preserves soundProvider Tx.to_deep_hash_item
      signedExampleTx exampleItem rfl
  exact ⟨tx2, h1, h5, h11⟩

end ArweaveRs
